import Mathlib

/-!
Shallow embedding of the `backendSecure` PDF-generation pipeline.

The embedded code is the two BullMQ workers of `workers/pdfWorker.js`
(render worker on queue `outputPdfQueue`, merge worker on queue
`mergePdfQueue`; the revision with the conditional stage transition and
the merge claim guard), the reconciler `selfHealJobIfStalled` of
`src/routes/docs.js`, the image resolver `resolveS3ImagesInLayout`, and
the HTML escaping of `src/pdf/generateOutputPdf.js`.

The embedding has three layers:

* plain sequential functions for the bodies of single handler
  invocations (`renderHandler`, `mergeHandler`, `selfHealJobIfStalled`,
  `resolveS3ImagesInLayout`, `escapeHtml`);
* a small-step transition system `Step` over `SysState` for the
  concurrency claims: each constructor is one atomic MongoDB update,
  one queue operation, or one local branch of a worker, and arbitrary
  interleavings of the four-way render pool and the merge worker are
  the reflexive-transitive closure `Reachable`;
* external effects (S3 uploads/downloads, the puppeteer render call)
  are abstracted as data: the byte length of the rendered buffer, the
  uploaded storage keys, and the fetched object keys, never as stubs
  that change control flow away from the source.
-/

namespace BackendSecure

/-- Fine-grained pipeline phase of a generation job (the `stage` field of
the `DocumentJobs` record). -/
inductive Stage where
  | pending
  | rendering
  | merging
  | completed
  | failed
deriving DecidableEq

/-- Coarse client-facing state of a job (the `status` field of the
`DocumentJobs` record). -/
inductive Status where
  | pending
  | processing
  | completed
  | failed
deriving DecidableEq

/-- One entry of `pageArtifacts`: the storage key of the rendered page
PDF and the page index it covers.  Storage keys are abstracted as
naturals. -/
structure Artifact where
  key : Nat
  pageIndex : Nat
deriving DecidableEq

/-- The `DocumentJobs` record as read and written by the pipeline.
Object ids are abstracted as naturals; `assignedQuota` is `none` when
the field is absent (its JS coercion `Number(undefined)` is `NaN`). -/
structure Job where
  totalPages : Nat
  completedPages : Nat
  pageArtifacts : List Artifact
  stage : Stage
  status : Status
  outputDocumentId : Option Nat
  assignedQuota : Option Int
  userId : Nat
  createdBy : Nat
deriving DecidableEq

/-- Render worker idempotency pre-check (`workers/pdfWorker.js`): the
task is a no-op when the job already has an `outputDocumentId` or is in
stage `completed` or `merging`. -/
def renderNoopGuard (j : Job) : Bool :=
  j.outputDocumentId.isSome || (j.stage == Stage.completed) || (j.stage == Stage.merging)

/-- The atomic render-completion update (`DocumentJobs.findByIdAndUpdate`
with `$inc completedPages`, `$push pageArtifacts`, `$set status/stage`):
a single MongoDB document update, hence one atomic step. -/
def incJob (j : Job) (key pageIndex : Nat) : Job :=
  { j with
    completedPages := j.completedPages + 1
    pageArtifacts := j.pageArtifacts ++ [⟨key, pageIndex⟩]
    status := Status.processing
    stage := Stage.rendering }

/-- Filter of the conditional merge transition performed by the render
worker (`findOneAndUpdate` guarded by `outputDocumentId: null` and
`stage ∈ {pending, rendering}`). -/
def transGuard (j : Job) : Bool :=
  j.outputDocumentId.isNone && ((j.stage == Stage.pending) || (j.stage == Stage.rendering))

/-- Filter of the merge worker's claim (`findOneAndUpdate` guarded by
`outputDocumentId: null` and `stage ≠ completed`). -/
def mergeClaimGuard (j : Job) : Bool :=
  j.outputDocumentId.isNone && !(j.stage == Stage.completed)

/-- Outcome of one sequential invocation of the render worker handler. -/
inductive RenderOutcome where
  | skippedNoJob
  | skippedAlreadyDone
  | failedEmptyPdf
  | completedPage
deriving DecidableEq

/-- Observable result of one render worker invocation: the job record it
leaves behind, the S3 keys it uploaded, its outcome, and whether it
reached the merge-enqueue call. -/
structure RenderRun where
  jobAfter : Option Job
  uploadedKeys : List Nat
  outcome : RenderOutcome
  mergeEnqueueTried : Bool
deriving DecidableEq

/-- Sequential body of the render worker handler of `workers/pdfWorker.js`
for one delivered task.  `pdfLen` is the byte length of the buffer
returned by `generateOutputPdfBuffer` (the puppeteer call is abstracted
by its result length; a zero length triggers `throw new Error("Empty
PDF")` before any upload).  `key` is the S3 key `uploadToS3` returns for
the page PDF. -/
def renderHandler (jobOpt : Option Job) (key pageIndex : Nat) (pdfLen : Nat) : RenderRun :=
  match jobOpt with
  | none => ⟨none, [], RenderOutcome.skippedNoJob, false⟩
  | some j =>
    if renderNoopGuard j then
      ⟨some j, [], RenderOutcome.skippedAlreadyDone, false⟩
    else if pdfLen = 0 then
      ⟨some j, [], RenderOutcome.failedEmptyPdf, false⟩
    else
      let updated := incJob j key pageIndex
      if updated.totalPages ≤ updated.completedPages ∧ 0 < updated.totalPages then
        if transGuard updated then
          ⟨some { updated with status := Status.processing, stage := Stage.merging },
            [key], RenderOutcome.completedPage, true⟩
        else
          ⟨some updated, [key], RenderOutcome.completedPage, false⟩
      else
        ⟨some updated, [key], RenderOutcome.completedPage, false⟩

/-- A `Document` record as created by the merge worker
(`Document.create`); `fileKey` abstracts the uploaded merged PDF. -/
structure DocumentRec where
  id : Nat
  title : String
  fileKey : Nat
  totalPrints : Int
  createdBy : Nat
deriving DecidableEq

/-- A `DocumentAccess` record: the access grant mapping
(userId, documentId) to quota and session token. -/
structure AccessRec where
  userId : Nat
  documentId : Nat
  assignedQuota : Int
  usedPrints : Nat
  sessionToken : Nat
deriving DecidableEq

/-- Does an access record match the unique (userId, documentId) pair? -/
def accessKeyMatches (a : AccessRec) (u d : Nat) : Bool :=
  (a.userId == u) && (a.documentId == d)

/-- `DocumentAccess.findOneAndUpdate` with `upsert: true`: update the
first record matching the (userId, documentId) filter, otherwise insert
a new one. -/
def upsertAccess : List AccessRec → AccessRec → List AccessRec
  | [], a => [a]
  | x :: xs, a =>
    if accessKeyMatches x a.userId a.documentId then a :: xs
    else x :: upsertAccess xs a

/-- Number of access records for a given (userId, documentId) pair. -/
def pairCount (l : List AccessRec) (u d : Nat) : Nat :=
  l.countP (fun a => accessKeyMatches a u d)

/-- Every (userId, documentId) pair has at most one access record. -/
def UniqueAccessPairs (l : List AccessRec) : Prop :=
  ∀ u d : Nat, pairCount l u d ≤ 1

/-- The persistent state the merge worker touches: the job record, the
`Document` and `DocumentAccess` collections, and allocators for the
fresh object id, uploaded storage key, and random session token
(`crypto.randomBytes` is abstracted as a token supply). -/
structure MergeDB where
  job : Job
  documents : List DocumentRec
  accesses : List AccessRec
  nextDocId : Nat
  nextKey : Nat
  nextToken : Nat
deriving DecidableEq

/-- `totalPrints` coercion of the merge worker:
`Number.isFinite(Number(jobDoc.assignedQuota)) ? Number(...) : 0`. -/
def jobTotalPrints (j : Job) : Int :=
  match j.assignedQuota with
  | none => 0
  | some q => q

/-- Sequential body of the merge worker handler of `workers/pdfWorker.js`
for one delivered merge task: claim the job with the conditional update
(`outputDocumentId: null`, `stage ≠ completed`; no match means the task
is a no-op), merge and upload the output (abstracted by the fresh
storage key), create the `Document`, upsert the `DocumentAccess` grant,
and finalize the job with `stage = completed`, `status = completed`,
`outputDocumentId` set. -/
def mergeHandler (db : MergeDB) : MergeDB :=
  if mergeClaimGuard db.job then
    let j := { db.job with status := Status.processing, stage := Stage.merging }
    let totalPrints := jobTotalPrints j
    let doc : DocumentRec :=
      { id := db.nextDocId
        title := "Generated Output"
        fileKey := db.nextKey
        totalPrints := totalPrints
        createdBy := j.createdBy }
    let acc : AccessRec :=
      { userId := j.userId
        documentId := doc.id
        assignedQuota := totalPrints
        usedPrints := 0
        sessionToken := db.nextToken }
    { job := { j with
                 status := Status.completed
                 stage := Stage.completed
                 outputDocumentId := some doc.id }
      documents := db.documents ++ [doc]
      accesses := upsertAccess db.accesses acc
      nextDocId := db.nextDocId + 1
      nextKey := db.nextKey + 1
      nextToken := db.nextToken + 1 }
  else db

/-- Artifact comparison used by the merge worker:
`[...jobDoc.pageArtifacts].sort((a, b) => a.pageIndex - b.pageIndex)`
sorts ascending by `pageIndex`. -/
def artLE (a b : Artifact) : Prop := a.pageIndex ≤ b.pageIndex

instance : DecidableRel artLE := fun a b =>
  inferInstanceAs (Decidable (a.pageIndex ≤ b.pageIndex))

instance : IsTotal Artifact artLE := ⟨fun a b => Nat.le_total a.pageIndex b.pageIndex⟩

instance : IsTrans Artifact artLE := ⟨fun _ _ _ h1 h2 => Nat.le_trans h1 h2⟩

/-- Strict version of `artLE`, used to compare the sorted lists. -/
def artLT (a b : Artifact) : Prop := a.pageIndex < b.pageIndex

instance : IsAntisymm Artifact artLT :=
  ⟨fun _ _ h1 h2 => absurd h1 (Nat.lt_asymm h2)⟩

/-- The merge worker's sorted artifact list (a stable ascending sort by
`pageIndex`, as the ES2019 `Array.prototype.sort`). -/
def sortArtifacts (l : List Artifact) : List Artifact :=
  List.insertionSort artLE l

/-- Page sequence of the merged output document: for each artifact in
sorted order, download its PDF and append all of its pages
(`copyPages`/`addPage`).  `content` maps a storage key to the page list
of the stored PDF. -/
def mergeOutput (content : Nat → List Nat) (l : List Artifact) : List Nat :=
  (sortArtifacts l).flatMap (fun a => content a.key)

/-- One item of a page layout, as consumed by `resolveS3ImagesInLayout`:
only the image source matters here (`none` models an item without a
`src` field, such as a text item). -/
structure LayoutItem where
  src : Option String
deriving DecidableEq

/-- A page layout: `items` array. -/
structure Layout where
  items : List LayoutItem
deriving DecidableEq

/-- `item.src.startsWith("s3://")`, at the character level so that it
evaluates inside the kernel. -/
def strHasS3Scheme (s : String) : Bool := s.data.take 5 == "s3://".data

/-- Does an item carry an `s3://` source (`i?.src?.startsWith("s3://")`)? -/
def itemHasS3Src (i : LayoutItem) : Bool :=
  match i.src with
  | some s => strHasS3Scheme s
  | none => false

/-- `item.src.replace("s3://", "")` for a source that starts with the
scheme: drop the five scheme characters. -/
def s3KeyOf (s : String) : String := String.mk (s.data.drop 5)

/-- The S3 object keys fetched (one `GetObjectCommand` each) by one
invocation of `resolveS3ImagesInLayout` of `workers/pdfWorker.js`.

The JS body maps an async callback over `items` inside `Promise.all`.
`Array.prototype.map` invokes every callback synchronously, and each
callback runs up to its first `await`; the `cache.has(key)` test
precedes the first `await` while `cache.set` runs only after the fetch
has resolved.  Hence every callback observes the cache before any entry
is written: each item with an `s3://` source issues its own fetch, and
the cache never suppresses a fetch within one invocation.  With no
bucket configured, or with no `s3://` item (the fast path), no fetch
happens. -/
def s3FetchesPerformed (bucketConfigured : Bool) (layout : Layout) : List String :=
  if bucketConfigured = false then []
  else if layout.items.any itemHasS3Src = false then []
  else
    layout.items.flatMap (fun i =>
      match i.src with
      | some s => if strHasS3Scheme s then [s3KeyOf s] else []
      | none => [])

/-- Value-level result of `resolveS3ImagesInLayout`: every `s3://` source
is replaced by the data URI built from the fetched object (`dataUrl`
maps the object key to that URI); other items and layouts without any
`s3://` source are returned unchanged. -/
def resolveS3ImagesInLayout (bucketConfigured : Bool) (dataUrl : String → String)
    (layout : Layout) : Layout :=
  if bucketConfigured = false then layout
  else if layout.items.any itemHasS3Src = false then layout
  else
    { items := layout.items.map (fun i =>
        match i.src with
        | some s => if strHasS3Scheme s then { src := some (dataUrl (s3KeyOf s)) } else i
        | none => i) }

/-- `escapeHtml` of `src/pdf/generateOutputPdf.js`, per character.  The
source chains five global single-character replaces in the order `&`,
`<`, `>`, `"`, apostrophe; since none of the replacement entities
contains a character that a later replace in the chain targives, the
chain equals this per-character substitution. -/
def escapeChar (c : Char) : List Char :=
  if c = '&' then ['&', 'a', 'm', 'p', ';']
  else if c = '<' then ['&', 'l', 't', ';']
  else if c = '>' then ['&', 'g', 't', ';']
  else if c = Char.ofNat 34 then ['&', 'q', 'u', 'o', 't', ';']
  else if c = Char.ofNat 39 then ['&', '#', '3', '9', ';']
  else [c]

/-- `escapeHtml(str)`: escape every character of the string. -/
def escapeHtml (s : String) : String := String.mk (s.data.flatMap escapeChar)

/-- Per-letter mode character emission of `buildHtml`:
`ch === ' ' ? '&nbsp;' : escapeHtml(ch)`. -/
def safeLetterHtml (c : Char) : String :=
  if c = ' ' then "&nbsp;" else escapeHtml (String.singleton c)

/-- Concatenated text content of the per-letter spans emitted by
`buildHtml` for one text item (the `${safeChar}` parts, in order). -/
def perLetterTextHtml (s : String) : String :=
  String.mk (s.data.flatMap (fun c => (safeLetterHtml c).data))

/-- Queue task state as far as the reconciler inspects it: the code only
distinguishes `state === 'failed'` from every other state. -/
inductive QTaskState where
  | failed
  | active
deriving DecidableEq

/-- One side effect performed by a reconciliation pass. -/
inductive HealAction where
  | setJobState (status : Status) (stage : Stage)
  | retryMergeTask (id : String)
  | addMergeTask (id : String)
  | retryRenderTask (id : String) (pageIndex : Nat)
  | addRenderTask (id : String) (pageIndex : Nat)
deriving DecidableEq

/-- Deterministic merge task identity: `` `${jobId}-merge` ``. -/
def mergeTaskId (jobId : String) : String := jobId ++ "-merge"

/-- Deterministic render task identity:
`` `${jobId}-page-${pageIndex}` ``. -/
def renderTaskId (jobId : String) (pageIndex : Nat) : String :=
  jobId ++ "-page-" ++ toString pageIndex

/-- The view of a `DocumentJobs` record read by `selfHealJobIfStalled`
(`src/routes/docs.js`): numeric fields after their `Number(...)`
coercions, the integer `pageIndex` values present in `pageArtifacts`,
the layout page count, and the `updatedAt` timestamp in epoch
milliseconds (`none` when absent). -/
structure HealJob where
  id : String
  totalPages : Int
  completedPages : Int
  layoutPagesCount : Nat
  pageArtifactIndexes : List Int
  outputDocumentId : Option Nat
  updatedAt : Option Int
  status : Status
  stage : Stage

/-- Environment of one reconciliation pass: the redis feature flag, the
current time, the in-memory cooldown timestamps for this job (`0` when
the map has no entry), and the two queues' task lookup by task id. -/
structure HealEnv where
  redisEnabled : Bool
  now : Int
  lastJobHealAt : Int
  lastMergeHealAt : Int
  mergeTask : String → Option QTaskState
  renderTask : String → Option QTaskState

/-- `updatedAtMs`: `job.updatedAt ? new Date(job.updatedAt).getTime() : 0`. -/
def updatedAtMs (j : HealJob) : Int :=
  match j.updatedAt with
  | none => 0
  | some u => u

/-- Missing page indexes: every `i ∈ [0, totalPages)` without an artifact. -/
def missingPages (totalPages : Int) (idxs : List Int) : List Nat :=
  (List.range totalPages.toNat).filter (fun i => !(idxs.contains (Int.ofNat i)))

/-- Reconciliation actions for the missing-render branch: per missing
page, retry an existing failed render task in place, skip a live one,
or enqueue a fresh task under its deterministic identity. -/
def healRenderActions (env : HealEnv) (jobId : String) (missing : List Nat) : List HealAction :=
  missing.flatMap (fun i =>
    match env.renderTask (renderTaskId jobId i) with
    | some st =>
      if st = QTaskState.failed then [HealAction.retryRenderTask (renderTaskId jobId i) i]
      else []
    | none => [HealAction.addRenderTask (renderTaskId jobId i) i])

/-- `selfHealJobIfStalled` of `src/routes/docs.js`, as the list of side
effects of one pass, in program order.  The writes into the two cooldown
maps are not returned (they only affect later passes); every guard and
its order follows the source. -/
def selfHealJobIfStalled (env : HealEnv) (job : HealJob) : List HealAction :=
  if env.redisEnabled = false then []
  else if job.totalPages ≤ 0 then []
  else if job.id = "" then []
  else
    let idxs := job.pageArtifactIndexes.dedup
    if job.totalPages ≤ job.completedPages ∧ job.totalPages ≤ (idxs.length : Int) then
      -- pagesAreDone: all pages rendered; repair a missing merge/output.
      if job.outputDocumentId = none then
        if env.now - env.lastMergeHealAt < 60000 then []
        else
          match env.mergeTask (mergeTaskId job.id) with
          | some st =>
            HealAction.setJobState Status.processing Stage.merging ::
              (if st = QTaskState.failed then [HealAction.retryMergeTask (mergeTaskId job.id)] else [])
          | none =>
            [HealAction.setJobState Status.processing Stage.merging, HealAction.addMergeTask (mergeTaskId job.id)]
      else []
    else
      if updatedAtMs job = 0 then []
      else if env.now - updatedAtMs job < 30000 then []
      else if env.now - env.lastJobHealAt < 60000 then []
      else if (job.layoutPagesCount : Int) < job.totalPages then []
      else
        let missing := missingPages job.totalPages job.pageArtifactIndexes
        if missing = [] then []
        else
          (if job.status = Status.failed ∨ job.stage = Stage.failed then
            [HealAction.setJobState Status.processing Stage.rendering]
          else []) ++ healRenderActions env job.id missing

/-- Local control point of a render worker processing one task, between
its atomic operations on shared state. -/
inductive RPhase where
  | toCheck
  | toInc
  | toTrans
  | toEnqueue
  | done
deriving DecidableEq

/-- One render worker invocation in flight: its control point and the
storage key / page index of the task it processes. -/
structure RWorker where
  phase : RPhase
  key : Nat
  pageIndex : Nat
deriving DecidableEq

/-- Local control point of the single merge worker. -/
inductive MPhase where
  | idle
  | claimed
deriving DecidableEq

/-- Shared state of the pipeline for the interleaving semantics: the job
record (the single shared mutable document), the deterministic
`jobId-merge` queue entry (present or not), the count of merge tasks the
queue has ever accepted, the count of merge finalizations, and the local
states of the workers. -/
structure SysState where
  job : Job
  renderWorkers : List RWorker
  mergePhase : MPhase
  mergeTaskQueued : Bool
  acceptedMerges : Nat
  finalizeCount : Nat
deriving DecidableEq

/-- One atomic step of the pipeline of `workers/pdfWorker.js`.  Render
steps: the idempotency pre-check read, a render/upload failure (the
handler throws; this revision has no catch, so the job record is
untouched), the atomic completion update with its threshold read-back,
the conditional merge transition, and the merge enqueue under the
deterministic id (`jobId-merge`; the queue accepts it only when absent,
a duplicate add is treated as success).  Merge steps: the claim
(conditional update; no match consumes the task as a no-op), a body
failure, and the finalization (`stage = completed`, `status =
completed`, `outputDocumentId` set, one atomic update); the completed or
failed task is removed from the queue (`removeOnComplete`,
`removeOnFail`). -/
inductive Step : SysState → SysState → Prop where
  | checkNoop (s : SysState) (i : Nat) (w : RWorker)
      (hw : s.renderWorkers[i]? = some w) (hp : w.phase = RPhase.toCheck)
      (hg : renderNoopGuard s.job = true) :
      Step s { s with renderWorkers := s.renderWorkers.set i { w with phase := RPhase.done } }
  | checkPass (s : SysState) (i : Nat) (w : RWorker)
      (hw : s.renderWorkers[i]? = some w) (hp : w.phase = RPhase.toCheck)
      (hg : renderNoopGuard s.job = false) :
      Step s { s with renderWorkers := s.renderWorkers.set i { w with phase := RPhase.toInc } }
  | renderFail (s : SysState) (i : Nat) (w : RWorker)
      (hw : s.renderWorkers[i]? = some w) (hp : w.phase = RPhase.toInc) :
      Step s { s with renderWorkers := s.renderWorkers.set i { w with phase := RPhase.done } }
  | incThreshold (s : SysState) (i : Nat) (w : RWorker)
      (hw : s.renderWorkers[i]? = some w) (hp : w.phase = RPhase.toInc)
      (hth : (incJob s.job w.key w.pageIndex).totalPages ≤ (incJob s.job w.key w.pageIndex).completedPages)
      (hpos : 0 < (incJob s.job w.key w.pageIndex).totalPages) :
      Step s { s with
               job := incJob s.job w.key w.pageIndex
               renderWorkers := s.renderWorkers.set i { w with phase := RPhase.toTrans } }
  | incBelow (s : SysState) (i : Nat) (w : RWorker)
      (hw : s.renderWorkers[i]? = some w) (hp : w.phase = RPhase.toInc)
      (hth : ¬((incJob s.job w.key w.pageIndex).totalPages ≤ (incJob s.job w.key w.pageIndex).completedPages ∧
               0 < (incJob s.job w.key w.pageIndex).totalPages)) :
      Step s { s with
               job := incJob s.job w.key w.pageIndex
               renderWorkers := s.renderWorkers.set i { w with phase := RPhase.done } }
  | transMatch (s : SysState) (i : Nat) (w : RWorker)
      (hw : s.renderWorkers[i]? = some w) (hp : w.phase = RPhase.toTrans)
      (hg : transGuard s.job = true) :
      Step s { s with
               job := { s.job with status := Status.processing, stage := Stage.merging }
               renderWorkers := s.renderWorkers.set i { w with phase := RPhase.toEnqueue } }
  | transMiss (s : SysState) (i : Nat) (w : RWorker)
      (hw : s.renderWorkers[i]? = some w) (hp : w.phase = RPhase.toTrans)
      (hg : transGuard s.job = false) :
      Step s { s with renderWorkers := s.renderWorkers.set i { w with phase := RPhase.done } }
  | enqueueAccept (s : SysState) (i : Nat) (w : RWorker)
      (hw : s.renderWorkers[i]? = some w) (hp : w.phase = RPhase.toEnqueue)
      (hq : s.mergeTaskQueued = false) :
      Step s { s with
               mergeTaskQueued := true
               acceptedMerges := s.acceptedMerges + 1
               renderWorkers := s.renderWorkers.set i { w with phase := RPhase.done } }
  | enqueueDup (s : SysState) (i : Nat) (w : RWorker)
      (hw : s.renderWorkers[i]? = some w) (hp : w.phase = RPhase.toEnqueue)
      (hq : s.mergeTaskQueued = true) :
      Step s { s with renderWorkers := s.renderWorkers.set i { w with phase := RPhase.done } }
  | mergeClaim (s : SysState)
      (hm : s.mergePhase = MPhase.idle) (hq : s.mergeTaskQueued = true)
      (hg : mergeClaimGuard s.job = true) :
      Step s { s with
               job := { s.job with status := Status.processing, stage := Stage.merging }
               mergePhase := MPhase.claimed }
  | mergeClaimMiss (s : SysState)
      (hm : s.mergePhase = MPhase.idle) (hq : s.mergeTaskQueued = true)
      (hg : mergeClaimGuard s.job = false) :
      Step s { s with mergeTaskQueued := false }
  | mergeBodyFail (s : SysState)
      (hm : s.mergePhase = MPhase.claimed) :
      Step s { s with mergePhase := MPhase.idle, mergeTaskQueued := false }
  | mergeFinalize (s : SysState) (docId : Nat)
      (hm : s.mergePhase = MPhase.claimed) :
      Step s { s with
               job := { s.job with
                          status := Status.completed
                          stage := Stage.completed
                          outputDocumentId := some docId }
               mergePhase := MPhase.idle
               mergeTaskQueued := false
               finalizeCount := s.finalizeCount + 1 }

/-- Arbitrary interleavings: the reflexive-transitive closure of `Step`. -/
def Reachable (s t : SysState) : Prop := Relation.ReflTransGen Step s t

/-- A freshly created job of `totalPages` pages, together with one
pending render worker per delivered task (`ws` lists the
(storage key, page index) pair of each delivery; duplicate page indexes
model duplicate deliveries of the same render task). -/
def initSysState (totalPages : Nat) (ws : List (Nat × Nat)) : SysState :=
  { job := { totalPages := totalPages
             completedPages := 0
             pageArtifacts := []
             stage := Stage.pending
             status := Status.pending
             outputDocumentId := none
             assignedQuota := none
             userId := 0
             createdBy := 0 }
    renderWorkers := ws.map (fun p => { phase := RPhase.toCheck, key := p.1, pageIndex := p.2 })
    mergePhase := MPhase.idle
    mergeTaskQueued := false
    acceptedMerges := 0
    finalizeCount := 0 }

/-- Invariant for the effectively-once merge: the job carries no output
document before any finalization, at most one finalization ever happens,
and a claimed merge worker always holds a job without output document. -/
def MergeOnceInv (s : SysState) : Prop :=
  s.finalizeCount ≤ 1 ∧
  (s.job.outputDocumentId = none → s.finalizeCount = 0) ∧
  (s.mergePhase = MPhase.claimed → s.job.outputDocumentId = none)

/-- Number of distinct page indexes among the artifacts. -/
def distinctPageIndexCount (l : List Artifact) : Nat :=
  (l.map Artifact.pageIndex).dedup.length

/-! Concrete interleavings used below.  `raceS0 … raceS8` and
`raceB7 … raceB10` are executions of a one-page job whose single render
task is delivered twice (at-least-once delivery): worker A has storage
key 10, worker B key 11, both for page index 0.  `dupS0 … dupS4` is a
two-page job whose page-0 task is delivered twice. -/

/-- One-page job, duplicate delivery of the page-0 render task. -/
def raceS0 : SysState := initSysState 1 [(10, 0), (11, 0)]

/-- A passed the idempotency pre-check (job still pending). -/
def raceS1 : SysState :=
  { job := raceS0.job
    renderWorkers := [⟨RPhase.toInc, 10, 0⟩, ⟨RPhase.toCheck, 11, 0⟩]
    mergePhase := MPhase.idle
    mergeTaskQueued := false
    acceptedMerges := 0
    finalizeCount := 0 }

/-- B also passed the pre-check before any other write. -/
def raceS2 : SysState :=
  { raceS1 with renderWorkers := [⟨RPhase.toInc, 10, 0⟩, ⟨RPhase.toInc, 11, 0⟩] }

/-- Job record after A's atomic completion update. -/
def raceJobA : Job :=
  { totalPages := 1
    completedPages := 1
    pageArtifacts := [⟨10, 0⟩]
    stage := Stage.rendering
    status := Status.processing
    outputDocumentId := none
    assignedQuota := none
    userId := 0
    createdBy := 0 }

/-- A ran its completion update and observed the threshold. -/
def raceS3 : SysState :=
  { raceS2 with
    job := raceJobA
    renderWorkers := [⟨RPhase.toTrans, 10, 0⟩, ⟨RPhase.toInc, 11, 0⟩] }

/-- A's conditional merge transition matched. -/
def raceS4 : SysState :=
  { raceS3 with
    job := { raceJobA with stage := Stage.merging }
    renderWorkers := [⟨RPhase.toEnqueue, 10, 0⟩, ⟨RPhase.toInc, 11, 0⟩] }

/-- The queue accepted A's merge task. -/
def raceS5 : SysState :=
  { raceS4 with
    renderWorkers := [⟨RPhase.done, 10, 0⟩, ⟨RPhase.toInc, 11, 0⟩]
    mergeTaskQueued := true
    acceptedMerges := 1 }

/-- The merge worker claimed the job. -/
def raceS6 : SysState :=
  { raceS5 with mergePhase := MPhase.claimed }

/-- Job record once the merge finalized (output document id 7). -/
def raceJobDone : Job :=
  { raceJobA with
    stage := Stage.completed
    status := Status.completed
    outputDocumentId := some 7 }

/-- Merge finalized directly after the claim. -/
def raceS7 : SysState :=
  { raceS6 with
    job := raceJobDone
    mergePhase := MPhase.idle
    mergeTaskQueued := false
    finalizeCount := 1 }

/-- B's late completion update landed after finalization: the stage is
reset to `rendering` while `outputDocumentId` stays set. -/
def raceS8 : SysState :=
  { raceS7 with
    job := { raceJobDone with
             completedPages := 2
             pageArtifacts := [⟨10, 0⟩, ⟨11, 0⟩]
             stage := Stage.rendering
             status := Status.processing }
    renderWorkers := [⟨RPhase.done, 10, 0⟩, ⟨RPhase.toTrans, 11, 0⟩] }

/-- Job record after B's completion update while the merge is claimed
but not yet finalized. -/
def raceJobB : Job :=
  { raceJobA with
    completedPages := 2
    pageArtifacts := [⟨10, 0⟩, ⟨11, 0⟩] }

/-- Alternative continuation of `raceS6`: B's completion update runs
before the merge finalizes, resetting the stage to `rendering`. -/
def raceB7 : SysState :=
  { raceS6 with
    job := raceJobB
    renderWorkers := [⟨RPhase.done, 10, 0⟩, ⟨RPhase.toTrans, 11, 0⟩] }

/-- B's conditional merge transition matches a second time. -/
def raceB8 : SysState :=
  { raceB7 with
    job := { raceJobB with stage := Stage.merging }
    renderWorkers := [⟨RPhase.done, 10, 0⟩, ⟨RPhase.toEnqueue, 11, 0⟩] }

/-- The merge finalizes and its completed task leaves the queue. -/
def raceB9 : SysState :=
  { raceB8 with
    job := { raceJobB with
             stage := Stage.completed
             status := Status.completed
             outputDocumentId := some 7 }
    mergePhase := MPhase.idle
    mergeTaskQueued := false
    finalizeCount := 1 }

/-- B's enqueue now finds no `jobId-merge` entry: the queue accepts a
second merge task for the same job. -/
def raceB10 : SysState :=
  { raceB9 with
    renderWorkers := [⟨RPhase.done, 10, 0⟩, ⟨RPhase.done, 11, 0⟩]
    mergeTaskQueued := true
    acceptedMerges := 2 }

/-- Two-page job, duplicate delivery of the page-0 render task. -/
def dupS0 : SysState := initSysState 2 [(10, 0), (11, 0)]

/-- A passed the pre-check. -/
def dupS1 : SysState :=
  { dupS0 with renderWorkers := [⟨RPhase.toInc, 10, 0⟩, ⟨RPhase.toCheck, 11, 0⟩] }

/-- A's completion update: one of two pages done. -/
def dupS2 : SysState :=
  { dupS1 with
    job := { dupS0.job with
             completedPages := 1
             pageArtifacts := [⟨10, 0⟩]
             stage := Stage.rendering
             status := Status.processing }
    renderWorkers := [⟨RPhase.done, 10, 0⟩, ⟨RPhase.toCheck, 11, 0⟩] }

/-- B passed the pre-check (job still rendering, same page 0). -/
def dupS3 : SysState :=
  { dupS2 with renderWorkers := [⟨RPhase.done, 10, 0⟩, ⟨RPhase.toInc, 11, 0⟩] }

/-- B's duplicate completion update: `completedPages` reaches 2 with two
artifacts for page index 0. -/
def dupS4 : SysState :=
  { dupS3 with
    job := { dupS2.job with
             completedPages := 2
             pageArtifacts := [⟨10, 0⟩, ⟨11, 0⟩] }
    renderWorkers := [⟨RPhase.done, 10, 0⟩, ⟨RPhase.toTrans, 11, 0⟩] }

/-! Theorems. -/

/-- C3: a render task delivered for a job that already has an
`outputDocumentId`, or whose stage is `merging` or `completed`, exits
successfully without rendering and without any state change: the job
record is returned untouched, nothing is uploaded, no artifact is
appended, `completedPages` is not incremented, and the merge enqueue is
never reached. -/
theorem renderTask_noop_when_superseded (j : Job) (key pageIndex pdfLen : Nat)
    (h : j.outputDocumentId.isSome = true ∨ j.stage = Stage.merging ∨ j.stage = Stage.completed) :
    renderHandler (some j) key pageIndex pdfLen =
      ⟨some j, [], RenderOutcome.skippedAlreadyDone, false⟩ := by
  have hg : renderNoopGuard j = true := by
    rcases h with h | h | h <;> simp [renderNoopGuard, h]
  simp [renderHandler, hg]

/-- Witness for C3: a concrete job in stage `merging` is left untouched. -/
theorem renderTask_noop_when_superseded_witness :
    renderHandler
      (some { totalPages := 3
              completedPages := 3
              pageArtifacts := [⟨1, 0⟩, ⟨2, 1⟩, ⟨3, 2⟩]
              stage := Stage.merging
              status := Status.processing
              outputDocumentId := none
              assignedQuota := some 4
              userId := 8
              createdBy := 9 })
      5 1 77 =
      ⟨some { totalPages := 3
              completedPages := 3
              pageArtifacts := [⟨1, 0⟩, ⟨2, 1⟩, ⟨3, 2⟩]
              stage := Stage.merging
              status := Status.processing
              outputDocumentId := none
              assignedQuota := some 4
              userId := 8
              createdBy := 9 },
        [], RenderOutcome.skippedAlreadyDone, false⟩ :=
  renderTask_noop_when_superseded _ 5 1 77 (Or.inr (Or.inl rfl))

/-- C9: when the rendering call returns a zero-length buffer without
throwing, the render task fails (`throw new Error("Empty PDF")`) before
any upload: no page artifact is uploaded or recorded and the job record
is unchanged. -/
theorem renderTask_empty_pdf_fails (j : Job) (key pageIndex : Nat)
    (hg : renderNoopGuard j = false) :
    renderHandler (some j) key pageIndex 0 =
      ⟨some j, [], RenderOutcome.failedEmptyPdf, false⟩ := by
  simp [renderHandler, hg]

/-- Witness for C9: a concrete rendering job fails on an empty buffer. -/
theorem renderTask_empty_pdf_fails_witness :
    renderHandler
      (some { totalPages := 2
              completedPages := 0
              pageArtifacts := []
              stage := Stage.pending
              status := Status.pending
              outputDocumentId := none
              assignedQuota := none
              userId := 1
              createdBy := 1 })
      6 0 0 =
      ⟨some { totalPages := 2
              completedPages := 0
              pageArtifacts := []
              stage := Stage.pending
              status := Status.pending
              outputDocumentId := none
              assignedQuota := none
              userId := 1
              createdBy := 1 },
        [], RenderOutcome.failedEmptyPdf, false⟩ :=
  renderTask_empty_pdf_fails _ 6 0 (by decide)

/-- The key of an access record matching a given pair agrees with that
pair on both components, so key-matching transfers along it. -/
theorem accessKeyMatches_congr (x a : AccessRec) (u d : Nat)
    (ha : accessKeyMatches a u d = true) :
    accessKeyMatches x a.userId a.documentId = accessKeyMatches x u d := by
  simp only [accessKeyMatches, Bool.and_eq_true, beq_iff_eq] at ha
  rw [accessKeyMatches, accessKeyMatches, ha.1, ha.2]

/-- Upserting a record whose key is the given pair leaves exactly one
record for that pair when there was at most one, and in general yields
`max (previous count) 1`. -/
theorem pairCount_upsert_matches (l : List AccessRec) (a : AccessRec) (u d : Nat)
    (ha : accessKeyMatches a u d = true) :
    pairCount (upsertAccess l a) u d = max (pairCount l u d) 1 := by
  induction l with
  | nil => simp [upsertAccess, pairCount, ha]
  | cons x xs ih =>
    simp only [pairCount] at ih ⊢
    rw [upsertAccess]
    by_cases hx : accessKeyMatches x a.userId a.documentId = true
    · rw [if_pos hx]
      have hx2 : accessKeyMatches x u d = true := by
        rw [← accessKeyMatches_congr x a u d ha]; exact hx
      simp [List.countP_cons, ha, hx2]
    · rw [if_neg hx]
      have hx2 : accessKeyMatches x u d = false := by
        rw [← accessKeyMatches_congr x a u d ha]
        simpa using hx
      simp [List.countP_cons, hx2]
      omega

/-- Upserting a record whose key is a different pair does not change the
count of that pair. -/
theorem pairCount_upsert_other (l : List AccessRec) (a : AccessRec) (u d : Nat)
    (ha : accessKeyMatches a u d = false) :
    pairCount (upsertAccess l a) u d = pairCount l u d := by
  induction l with
  | nil => simp [upsertAccess, pairCount, ha]
  | cons x xs ih =>
    simp only [pairCount] at ih ⊢
    rw [upsertAccess]
    by_cases hx : accessKeyMatches x a.userId a.documentId = true
    · rw [if_pos hx]
      have hxc := hx
      simp only [accessKeyMatches, Bool.and_eq_true, beq_iff_eq] at hxc
      have hx2 : accessKeyMatches x u d = false := by
        simp only [accessKeyMatches, hxc.1, hxc.2]
        simpa [accessKeyMatches] using ha
      simp [List.countP_cons, ha, hx2]
    · rw [if_neg hx]
      simp only [List.countP_cons]
      omega

/-- C2: re-running the merge finalize step for the same job is
idempotent — the second delivery finds `outputDocumentId` set (or the
stage `completed`) and its claim matches no document, so nothing is
created — and the access upsert keeps at most one access grant per
(user, document) pair. -/
theorem mergeHandler_idempotent (db : MergeDB) (h : UniqueAccessPairs db.accesses) :
    mergeHandler (mergeHandler db) = mergeHandler db ∧
      UniqueAccessPairs (mergeHandler db).accesses := by
  constructor
  · by_cases g : mergeClaimGuard db.job = true
    · have hout : (mergeHandler db).job.outputDocumentId = some db.nextDocId := by
        rw [mergeHandler, if_pos g]
      have hg2 : mergeClaimGuard (mergeHandler db).job = false := by
        simp [mergeClaimGuard, hout]
      conv_lhs => rw [mergeHandler]
      rw [if_neg (by simp [hg2])]
    · have hnoop : mergeHandler db = db := by
        rw [mergeHandler, if_neg g]
      rw [hnoop, hnoop]
  · by_cases g : mergeClaimGuard db.job = true
    · intro u d
      have hacc : (mergeHandler db).accesses =
          upsertAccess db.accesses
            { userId := db.job.userId
              documentId := db.nextDocId
              assignedQuota := jobTotalPrints db.job
              usedPrints := 0
              sessionToken := db.nextToken } := by
        rw [mergeHandler, if_pos g]
        rfl
      rw [hacc]
      by_cases hm : accessKeyMatches
          { userId := db.job.userId
            documentId := db.nextDocId
            assignedQuota := jobTotalPrints db.job
            usedPrints := 0
            sessionToken := db.nextToken } u d = true
      · rw [pairCount_upsert_matches _ _ _ _ hm]
        have := h u d
        omega
      · rw [pairCount_upsert_other _ _ _ _ (by simpa using hm)]
        exact h u d
    · have hnoop : mergeHandler db = db := by rw [mergeHandler, if_neg g]
      rw [hnoop]; exact h

/-- Witness for C2 on a concrete mergeable job with an empty access
collection. -/
theorem mergeHandler_idempotent_witness :
    mergeHandler
      (mergeHandler
        { job := { totalPages := 1
                   completedPages := 1
                   pageArtifacts := [⟨10, 0⟩]
                   stage := Stage.rendering
                   status := Status.processing
                   outputDocumentId := none
                   assignedQuota := some 3
                   userId := 8
                   createdBy := 9 }
          documents := []
          accesses := []
          nextDocId := 100
          nextKey := 200
          nextToken := 300 }) =
      mergeHandler
        { job := { totalPages := 1
                   completedPages := 1
                   pageArtifacts := [⟨10, 0⟩]
                   stage := Stage.rendering
                   status := Status.processing
                   outputDocumentId := none
                   assignedQuota := some 3
                   userId := 8
                   createdBy := 9 }
          documents := []
          accesses := []
          nextDocId := 100
          nextKey := 200
          nextToken := 300 } :=
  (mergeHandler_idempotent _ (fun u d => by simp [pairCount])).1

/-- A sorted artifact list with pairwise-distinct page indexes is
strictly sorted by page index. -/
theorem sorted_artLT_of_nodup (l : List Artifact)
    (hn : (l.map Artifact.pageIndex).Nodup) (hs : l.Sorted artLE) :
    l.Sorted artLT := by
  have hne : l.Pairwise (fun a b => a.pageIndex ≠ b.pageIndex) := by
    rw [List.Nodup, List.pairwise_map] at hn
    exact hn
  exact (List.Pairwise.and hs hne).imp (fun h => Nat.lt_of_le_of_ne h.1 h.2)

/-- C7: the merge worker concatenates artifacts sorted ascending by
`pageIndex`; when no page index is duplicated, any two append orders of
the same artifacts sort to the same list, so the output page sequence
depends only on the `pageIndex` tags, never on artifact write order. -/
theorem mergeOutput_independent_of_write_order (content : Nat → List Nat)
    (l1 l2 : List Artifact) (hperm : l1.Perm l2)
    (hnd : (l1.map Artifact.pageIndex).Nodup) :
    sortArtifacts l1 = sortArtifacts l2 ∧
      (sortArtifacts l1).Sorted artLE ∧
      mergeOutput content l1 = mergeOutput content l2 := by
  have p1 : (sortArtifacts l1).Perm l1 := List.perm_insertionSort artLE l1
  have p2 : (sortArtifacts l2).Perm l2 := List.perm_insertionSort artLE l2
  have s1 : (sortArtifacts l1).Sorted artLE := List.sorted_insertionSort artLE l1
  have s2 : (sortArtifacts l2).Sorted artLE := List.sorted_insertionSort artLE l2
  have hnd2 : (l2.map Artifact.pageIndex).Nodup :=
    ((hperm.map Artifact.pageIndex).nodup_iff).mp hnd
  have nd1 : ((sortArtifacts l1).map Artifact.pageIndex).Nodup :=
    ((p1.map Artifact.pageIndex).nodup_iff).mpr hnd
  have nd2 : ((sortArtifacts l2).map Artifact.pageIndex).Nodup :=
    ((p2.map Artifact.pageIndex).nodup_iff).mpr hnd2
  have heq : sortArtifacts l1 = sortArtifacts l2 :=
    List.eq_of_perm_of_sorted (p1.trans (hperm.trans p2.symm))
      (sorted_artLT_of_nodup _ nd1 s1) (sorted_artLT_of_nodup _ nd2 s2)
  exact ⟨heq, s1, by rw [mergeOutput, mergeOutput, heq]⟩

/-- Witness for C7: two write orders of the same two artifacts sort
identically. -/
theorem mergeOutput_independent_of_write_order_witness :
    sortArtifacts [⟨5, 1⟩, ⟨6, 0⟩] = sortArtifacts [⟨6, 0⟩, ⟨5, 1⟩] :=
  (mergeOutput_independent_of_write_order (fun k => [k]) _ _ (by decide) (by decide)).1

/-- C8 evaluation: the resolver issues one fetch per `s3://` item, so a
layout whose two items share the source `s3://k` fetches the object `k`
twice in a single invocation — the per-invocation cache cannot dedupe
them, because every callback of `items.map` inside `Promise.all` checks
the cache before any fetch has resolved and written its entry.  The
fast path holds: a layout without `s3://` sources triggers no fetch and
is returned unchanged. -/
theorem resolveS3_duplicate_source_two_fetches :
    (s3FetchesPerformed true ⟨[⟨some "s3://k"⟩, ⟨some "s3://k"⟩]⟩).count "k" = 2 ∧
      s3FetchesPerformed true ⟨[⟨some "data:x"⟩, ⟨none⟩]⟩ = [] ∧
      resolveS3ImagesInLayout true (fun k => "data:" ++ k) ⟨[⟨some "data:x"⟩, ⟨none⟩]⟩ =
        ⟨[⟨some "data:x"⟩, ⟨none⟩]⟩ := by
  refine ⟨by decide, by decide, by decide⟩

/-- Every character emitted by `escapeChar` is safe: the escaping maps
the five special characters to entities and leaves no raw `<`, `>`,
double quote, or apostrophe in its output. -/
theorem escapeChar_no_raw_markup (c0 c : Char) (hm : c ∈ escapeChar c0) :
    c ≠ '<' ∧ c ≠ '>' ∧ c ≠ Char.ofNat 34 ∧ c ≠ Char.ofNat 39 := by
  unfold escapeChar at hm
  split_ifs at hm with h1 h2 h3 h4 h5
  · simp at hm
    rcases hm with rfl | rfl | rfl | rfl | rfl <;> refine ⟨by decide, by decide, by decide, by decide⟩
  · simp at hm
    rcases hm with rfl | rfl | rfl | rfl <;> refine ⟨by decide, by decide, by decide, by decide⟩
  · simp at hm
    rcases hm with rfl | rfl | rfl | rfl <;> refine ⟨by decide, by decide, by decide, by decide⟩
  · simp at hm
    rcases hm with rfl | rfl | rfl | rfl | rfl | rfl <;>
      refine ⟨by decide, by decide, by decide, by decide⟩
  · simp at hm
    rcases hm with rfl | rfl | rfl | rfl | rfl <;> refine ⟨by decide, by decide, by decide, by decide⟩
  · simp at hm
    subst hm
    exact ⟨h2, h3, h4, h5⟩

/-- C10: the text of a text item is HTML-escaped before being spliced
into the generated markup — both in uniform mode (`escapeHtml rawText`)
and in per-letter mode (`safeChar` per character) the emitted text
contains no raw `<`, `>`, `"` or apostrophe, so item text cannot open a
tag or escape an attribute; in per-letter mode a space character is
emitted as `&nbsp;`. -/
theorem textItem_html_escaped (s : String) (c : Char)
    (h : c ∈ (escapeHtml s).data ∨ c ∈ (perLetterTextHtml s).data) :
    (c ≠ '<' ∧ c ≠ '>' ∧ c ≠ Char.ofNat 34 ∧ c ≠ Char.ofNat 39) ∧
      safeLetterHtml ' ' = "&nbsp;" := by
  refine ⟨?_, rfl⟩
  rcases h with h | h
  · rw [escapeHtml] at h
    rcases List.mem_flatMap.mp h with ⟨c0, _, hmem⟩
    exact escapeChar_no_raw_markup c0 c hmem
  · rw [perLetterTextHtml] at h
    rcases List.mem_flatMap.mp h with ⟨c0, _, hmem⟩
    by_cases hsp : c0 = ' '
    · subst hsp
      rw [safeLetterHtml, if_pos rfl] at hmem
      simp only [show ("&nbsp;" : String).data = ['&', 'n', 'b', 's', 'p', ';'] from rfl] at hmem
      simp at hmem
      rcases hmem with rfl | rfl | rfl | rfl | rfl | rfl <;>
        refine ⟨by decide, by decide, by decide, by decide⟩
    · rw [safeLetterHtml, if_neg hsp, escapeHtml] at hmem
      rcases List.mem_flatMap.mp hmem with ⟨c1, _, hm2⟩
      exact escapeChar_no_raw_markup c1 c hm2

/-- Witness for C10 at a concrete escaped string and character. -/
theorem textItem_html_escaped_witness :
    ('a' ≠ '<' ∧ 'a' ≠ '>' ∧ 'a' ≠ Char.ofNat 34 ∧ 'a' ≠ Char.ofNat 39) ∧
      safeLetterHtml ' ' = "&nbsp;" :=
  textItem_html_escaped "a<b" 'a' (Or.inl (by decide))

/-- With page indexes 0–3 present out of five pages, exactly page 4 is
missing. -/
theorem missingPages_five_of_four : missingPages 5 [0, 1, 2, 3] = [4] := by decide

/-- C6: a five-page job with artifacts for pages 0–3, unmodified for at
least 30 seconds, outside its per-job heal cooldown, with its layouts
available and marked failed, gets exactly two reconciliation effects in
one pass: the flip back to `status = processing, stage = rendering`, and
one render task for page index 4 under the identity `jobId-page-4` — a
fresh enqueue when the queue has no such task, an in-place retry when a
failed one exists. -/
theorem selfHeal_requeues_single_missing_page
    (jid : String) (u now lastJ lastM : Int)
    (mt rt : String → Option QTaskState) (od : Option Nat) (stg : Stage)
    (hjid : ¬(jid = "")) (hu : ¬(u = 0))
    (h30 : 30000 ≤ now - u) (h60 : 60000 ≤ now - lastJ)
    (hrt : rt (renderTaskId jid 4) = none ∨ rt (renderTaskId jid 4) = some QTaskState.failed) :
    selfHealJobIfStalled ⟨true, now, lastJ, lastM, mt, rt⟩
      ⟨jid, 5, 4, 5, [0, 1, 2, 3], od, some u, Status.failed, stg⟩ =
      [HealAction.setJobState Status.processing Stage.rendering,
        if rt (renderTaskId jid 4) = none then HealAction.addRenderTask (renderTaskId jid 4) 4
        else HealAction.retryRenderTask (renderTaskId jid 4) 4] := by
  have h30n : ¬(now - u < 30000) := by omega
  have h60n : ¬(now - lastJ < 60000) := by omega
  rcases hrt with h | h <;>
    simp [selfHealJobIfStalled, updatedAtMs, hjid, hu, h30n, h60n,
      missingPages_five_of_four, healRenderActions, h]

/-- Witness for C6 at fully concrete inputs with an empty queue. -/
theorem selfHeal_requeues_single_missing_page_witness :
    selfHealJobIfStalled ⟨true, 70000, 0, 0, fun _ => none, fun _ => none⟩
      ⟨"j", 5, 4, 5, [0, 1, 2, 3], none, some 1, Status.failed, Stage.failed⟩ =
      [HealAction.setJobState Status.processing Stage.rendering,
        HealAction.addRenderTask (renderTaskId "j" 4) 4] := by
  have h := selfHeal_requeues_single_missing_page "j" 1 70000 0 0
    (fun _ => none) (fun _ => none) none Stage.failed
    (by decide) (by decide) (by decide) (by decide) (Or.inl rfl)
  simpa using h

/-- Each atomic step increments `completedPages` exactly when it appends
one artifact, preserving their equality. -/
theorem artifact_count_step {s t : SysState} (h : Step s t)
    (hinv : s.job.completedPages = s.job.pageArtifacts.length) :
    t.job.completedPages = t.job.pageArtifacts.length := by
  cases h <;> simp_all [incJob]

/-- C4 (amended): in every reachable state of the pipeline — any
interleaving, duplicate deliveries included — `completedPages` equals
the total number of `pageArtifacts` entries, because the counter
increment and the artifact append are one atomic update.  (It equals the
number of distinct `pageIndex` values only when no page index was
processed twice; see the counterexample.) -/
theorem completedPages_eq_artifact_count (T : Nat) (ws : List (Nat × Nat)) (s : SysState)
    (h : Reachable (initSysState T ws) s) :
    s.job.completedPages = s.job.pageArtifacts.length := by
  induction h with
  | refl => rfl
  | tail _ hstep ih => exact artifact_count_step hstep ih

/-- Steps preserve the forward implication from a completed stage to a
set output document. -/
theorem completed_stage_has_output_step {s t : SysState} (h : Step s t)
    (hinv : s.job.stage = Stage.completed → s.job.outputDocumentId.isSome = true) :
    t.job.stage = Stage.completed → t.job.outputDocumentId.isSome = true := by
  cases h <;> simp_all [incJob]

/-- C5 (amended): in every reachable state, a job in stage `completed`
has its `outputDocumentId` set — the merge finalization writes both in
one atomic update and nothing ever unsets the output document.  (The
converse fails; see the counterexample.) -/
theorem stage_completed_iff_output_forward (T : Nat) (ws : List (Nat × Nat)) (s : SysState)
    (h : Reachable (initSysState T ws) s)
    (hc : s.job.stage = Stage.completed) :
    s.job.outputDocumentId.isSome = true := by
  induction h with
  | refl => simp [initSysState] at hc
  | tail _ hstep ih => exact completed_stage_has_output_step hstep ih hc

/-- Each atomic step preserves `MergeOnceInv`. -/
theorem mergeOnceInv_step {s t : SysState} (h : Step s t) (hinv : MergeOnceInv s) :
    MergeOnceInv t := by
  obtain ⟨h1, h2, h3⟩ := hinv
  cases h with
  | checkNoop i w hw hp hg => exact ⟨h1, h2, h3⟩
  | checkPass i w hw hp hg => exact ⟨h1, h2, h3⟩
  | renderFail i w hw hp => exact ⟨h1, h2, h3⟩
  | incThreshold i w hw hp hth hpos => exact ⟨h1, h2, h3⟩
  | incBelow i w hw hp hth => exact ⟨h1, h2, h3⟩
  | transMatch i w hw hp hg => exact ⟨h1, h2, h3⟩
  | transMiss i w hw hp hg => exact ⟨h1, h2, h3⟩
  | enqueueAccept i w hw hp hq => exact ⟨h1, h2, h3⟩
  | enqueueDup i w hw hp hq => exact ⟨h1, h2, h3⟩
  | mergeClaim hm hq hg =>
    have ho : s.job.outputDocumentId = none := by
      simp only [mergeClaimGuard, Bool.and_eq_true, Option.isNone_iff_eq_none] at hg
      exact hg.1
    exact ⟨h1, h2, fun _ => ho⟩
  | mergeClaimMiss hm hq hg => exact ⟨h1, h2, h3⟩
  | mergeBodyFail hm => exact ⟨h1, h2, fun hc => absurd hc (by simp)⟩
  | mergeFinalize docId hm =>
    have ho : s.job.outputDocumentId = none := h3 hm
    have hz : s.finalizeCount = 0 := h2 ho
    refine ⟨?_, ?_, ?_⟩
    · show s.finalizeCount + 1 ≤ 1
      omega
    · intro hh
      exact absurd hh (by simp)
    · intro hc
      exact absurd hc (by simp)

/-- `MergeOnceInv` holds in every reachable state. -/
theorem mergeOnceInv_reachable (T : Nat) (ws : List (Nat × Nat)) (s : SysState)
    (h : Reachable (initSysState T ws) s) : MergeOnceInv s := by
  induction h with
  | refl => exact ⟨Nat.zero_le 1, fun _ => rfl, fun _ => rfl⟩
  | tail _ hstep ih => exact mergeOnceInv_step hstep ih

/-- C1 (amended): across every interleaving, the merge is finalized at
most once per job — a merge execution only finalizes after its claim
(conditional update requiring `outputDocumentId` unset) matched, the
finalization sets `outputDocumentId` atomically along with the completed
stage, and no step ever unsets it.  (Two render workers' conditional
transitions can both match, and a second merge task can be accepted
after the first completed and left the queue; the extra execution's
claim finds no match and is a no-op — see the counterexample.) -/
theorem merge_finalized_at_most_once (T : Nat) (ws : List (Nat × Nat)) (s : SysState)
    (h : Reachable (initSysState T ws) s) : s.finalizeCount ≤ 1 :=
  (mergeOnceInv_reachable T ws s h).1

/-- Steps 1–6 of the duplicate-delivery race: A completes the single
page, transitions the job, enqueues the merge task, and the merge worker
claims the job; B has passed its pre-check early and still holds its
render task. -/
theorem reach_raceS6 : Reachable raceS0 raceS6 := by
  have h1 : Step raceS0 raceS1 := Step.checkPass raceS0 0 ⟨RPhase.toCheck, 10, 0⟩ rfl rfl rfl
  have h2 : Step raceS1 raceS2 := Step.checkPass raceS1 1 ⟨RPhase.toCheck, 11, 0⟩ rfl rfl rfl
  have h3 : Step raceS2 raceS3 :=
    Step.incThreshold raceS2 0 ⟨RPhase.toInc, 10, 0⟩ rfl rfl (by decide) (by decide)
  have h4 : Step raceS3 raceS4 := Step.transMatch raceS3 0 ⟨RPhase.toTrans, 10, 0⟩ rfl rfl rfl
  have h5 : Step raceS4 raceS5 :=
    Step.enqueueAccept raceS4 0 ⟨RPhase.toEnqueue, 10, 0⟩ rfl rfl rfl
  have h6 : Step raceS5 raceS6 := Step.mergeClaim raceS5 rfl rfl rfl
  exact Relation.ReflTransGen.head h1 (Relation.ReflTransGen.head h2
    (Relation.ReflTransGen.head h3 (Relation.ReflTransGen.head h4
      (Relation.ReflTransGen.head h5 (Relation.ReflTransGen.single h6)))))

/-- The merge finalizes right after its claim. -/
theorem reach_raceS7 : Reachable raceS0 raceS7 :=
  Relation.ReflTransGen.tail reach_raceS6 (Step.mergeFinalize raceS6 7 rfl)

/-- B's duplicate completion update lands after the finalization. -/
theorem reach_raceS8 : Reachable raceS0 raceS8 :=
  Relation.ReflTransGen.tail reach_raceS7
    (Step.incThreshold raceS7 1 ⟨RPhase.toInc, 11, 0⟩ rfl rfl (by decide) (by decide))

/-- Alternative continuation: B increments and re-matches the
conditional transition before the merge finalizes, then enqueues after
the completed merge task left the queue. -/
theorem reach_raceB10 : Reachable raceS0 raceB10 := by
  have hb7 : Step raceS6 raceB7 :=
    Step.incThreshold raceS6 1 ⟨RPhase.toInc, 11, 0⟩ rfl rfl (by decide) (by decide)
  have hb8 : Step raceB7 raceB8 :=
    Step.transMatch raceB7 1 ⟨RPhase.toTrans, 11, 0⟩ rfl rfl rfl
  have hb9 : Step raceB8 raceB9 := Step.mergeFinalize raceB8 7 rfl
  have hb10 : Step raceB9 raceB10 :=
    Step.enqueueAccept raceB9 1 ⟨RPhase.toEnqueue, 11, 0⟩ rfl rfl rfl
  exact Relation.ReflTransGen.tail (Relation.ReflTransGen.tail
    (Relation.ReflTransGen.tail (Relation.ReflTransGen.tail reach_raceS6 hb7) hb8) hb9) hb10

/-- The two-page duplicate-delivery execution. -/
theorem reach_dupS4 : Reachable dupS0 dupS4 := by
  have hd1 : Step dupS0 dupS1 := Step.checkPass dupS0 0 ⟨RPhase.toCheck, 10, 0⟩ rfl rfl rfl
  have hd2 : Step dupS1 dupS2 :=
    Step.incBelow dupS1 0 ⟨RPhase.toInc, 10, 0⟩ rfl rfl (by decide)
  have hd3 : Step dupS2 dupS3 := Step.checkPass dupS2 1 ⟨RPhase.toCheck, 11, 0⟩ rfl rfl rfl
  have hd4 : Step dupS3 dupS4 :=
    Step.incThreshold dupS3 1 ⟨RPhase.toInc, 11, 0⟩ rfl rfl (by decide) (by decide)
  exact Relation.ReflTransGen.head hd1 (Relation.ReflTransGen.head hd2
    (Relation.ReflTransGen.head hd3 (Relation.ReflTransGen.single hd4)))

/-- C1 counterexample: with a one-page job whose render task is
delivered twice, both workers' conditional transitions match in turn and
the queue accepts two merge tasks for the job over its lifetime (the
second after the completed first left the queue). -/
theorem two_merge_tasks_accepted :
    Reachable raceS0 raceB10 ∧ raceB10.acceptedMerges = 2 :=
  ⟨reach_raceB10, rfl⟩

/-- C4 counterexample: a reachable state outside any merge in which
`completedPages = 2` while only one distinct page index occurs among the
artifacts (the page-0 task was delivered and processed twice). -/
theorem completedPages_ne_distinct_counterexample :
    Reachable dupS0 dupS4 ∧ dupS4.job.stage = Stage.rendering ∧
      dupS4.job.completedPages = 2 ∧
      distinctPageIndexCount dupS4.job.pageArtifacts = 1 :=
  ⟨reach_dupS4, rfl, rfl, by decide⟩

/-- C5 counterexample: a reachable state with `outputDocumentId` set
while the stage is `rendering` — a duplicate render completion after the
merge finalization reset the stage. -/
theorem output_set_while_stage_rendering :
    Reachable raceS0 raceS8 ∧ raceS8.job.outputDocumentId = some 7 ∧
      raceS8.job.stage = Stage.rendering :=
  ⟨reach_raceS8, rfl, rfl⟩

/-- Witness for C1 (amended) on a concrete reachable state. -/
theorem merge_finalized_at_most_once_witness : raceS8.finalizeCount ≤ 1 :=
  merge_finalized_at_most_once 1 [(10, 0), (11, 0)] raceS8 reach_raceS8

/-- Witness for C4 (amended) on a concrete reachable state. -/
theorem completedPages_eq_artifact_count_witness :
    dupS4.job.completedPages = dupS4.job.pageArtifacts.length :=
  completedPages_eq_artifact_count 2 [(10, 0), (11, 0)] dupS4 reach_dupS4

/-- Witness for C5 (amended) on a concrete reachable completed state. -/
theorem stage_completed_iff_output_forward_witness :
    raceS7.job.outputDocumentId.isSome = true :=
  stage_completed_iff_output_forward 1 [(10, 0), (11, 0)] raceS7 reach_raceS7 rfl

end BackendSecure
